import Mathlib

/-!
Verification of the acorn-io/tools repository:
  * `azure-openai-model-provider/main.py` — an HTTP adapter exposing an
    OpenAI-compatible chat/embeddings surface and forwarding to an Azure
    OpenAI deployment, and
  * `google/youtube/helpers.py` — a YouTube video-id extractor.

The Azure SDK client (`azure_client.chat.completions.create` and
`azure_client.embeddings.create`) is external to the repository, so it is
modelled as an oracle function passed to each handler.  JSON values are
embedded as an inductive type; `json.loads` is external, so a request body
arrives as `Option Json` (`none` models a JSON decode failure).  Python
exceptions that may carry `status_code` / `message` attributes are modelled
by `PyExc`, where a `none` field models the attribute access raising.
-/

/-- A JSON value, as produced by Python's `json.loads`.  Numbers are
modelled as integers: no claim depends on non-integral numerics. -/
inductive Json where
  | null : Json
  | bool (b : Bool) : Json
  | num (n : Int) : Json
  | str (s : String) : Json
  | arr (elems : List Json) : Json
  | obj (fields : List (String × Json)) : Json

/-- Dictionary lookup on the fields of a JSON object.  `json.loads` builds a
`dict`, where a later duplicate key wins, hence the lookup from the right. -/
def lookup (fields : List (String × Json)) (k : String) : Option Json :=
  (fields.reverse.find? (fun p => p.1 = k)).map (fun p => p.2)

/-- Python truthiness (`bool(x)`) of a JSON value: used by `if not stream`. -/
def Json.truthy : Json → Bool
  | .null => false
  | .bool b => b
  | .num n => n != 0
  | .str s => s ≠ ""
  | .arr elems => !elems.isEmpty
  | .obj fields => !fields.isEmpty

/-- A Python exception as seen by the handlers' `except` blocks.
`status_code` / `message` are `none` when the attribute access would raise
`AttributeError`; `str` is the exception's `str(e)` representation. -/
structure PyExc where
  status_code : Option Int
  message : Option String
  str : String

/-- The exception raised by Python's `data["k"]` on a missing key:
no `status_code` / `message` attributes, and `str(KeyError(k))` is the
repr of the key. -/
def pyKeyError (k : String) : PyExc :=
  { status_code := none, message := none, str := "\x27" ++ k ++ "\x27" }

/-- The `except` block shared by both endpoints: use `e.status_code` and
`e.message` when both attribute reads succeed, otherwise fall back to
status 500 with `str(e)` (`error_code` is assigned before `error_message`,
so a failure of either read lands in the bare `except`). -/
def extractError (e : PyExc) : Int × String :=
  match e.status_code, e.message with
  | some c, some m => (c, m)
  | _, _ => (500, e.str)

/-- A value produced by the `log` helper: `print`s its argument only when
the debug flag is set, so it contributes a log line exactly then. -/
def logLines (debug : Bool) (msg : String) : List String :=
  if debug then [msg] else []

/-- The fixed system prompt string defined at module level in `main.py`. -/
def systemText : String :=
  "\nYou are task oriented system.\nYou receive input from a user, process the input from the given instructions, and then output the result.\nYour objective is to provide consistent and correct results.\nYou do not need to explain the steps taken, only provide the result to the given instructions.\nYou are referred to as a tool.\nYou don\x27t move to the next step until you have a result.\n"

/-- The system message `chat_completions` inserts at index 0 of `messages`. -/
def systemMessage : Json :=
  .obj [("content", .str systemText), ("role", .str "system")]

/-- The keyword arguments the handler passes to
`azure_client.chat.completions.create`.  `tools`, `tool_choice` and
`temperature` are `none` when the sentinel `NOT_GIVEN` is passed
(the argument is omitted). -/
structure ChatArgs where
  model : Json
  messages : List Json
  tools : Option Json
  tool_choice : Option String
  temperature : Option Json
  stream : Json

/-- What `azure_client.chat.completions.create` returns on success: a
single completion (encoded by `jsonable_encoder` as a JSON value) or a
stream of chunks, each represented by its `model_dump_json()` string. -/
inductive ChatResult where
  | completion (body : Json) : ChatResult
  | stream (chunks : List String) : ChatResult

/-- The observable outcome of one endpoint invocation:
a successful response, an `HTTPException` raised by the handler's `except`
block, or an exception that escapes the handler untranslated (raised
outside the `try` block). -/
inductive HandlerResult where
  | ok (body : Json) : HandlerResult
  | streamResp (frames : List String) : HandlerResult
  | httpError (status : Int) (detail : String) : HandlerResult
  | uncaught (exc : String) : HandlerResult

/-- The part of `chat_completions` before the `try` block, applied to the
result of `json.loads` (`none` = the body was not valid JSON).  Errors
raised here escape the handler untranslated.  `float(temperature)` is
modelled as the identity on the JSON value: numbers are integral in this
model and no claim depends on the coercion. -/
structure ChatPre where
  fields : List (String × Json)
  tools : Option Json
  tool_choice : Option String
  temperature : Option Json
  stream : Json
  messages : List Json

/-- Runs lines 61–78 of `main.py`: decode, extract `tools`, `tool_choice`,
`temperature`, `stream`, then `data["messages"]` (KeyError escapes) and
`messages.insert(0, system message)`. -/
def chatPrep (body : Option Json) : HandlerResult ⊕ ChatPre :=
  match body with
  | none => .inl (.uncaught "json.decoder.JSONDecodeError")
  | some (Json.obj fields) =>
    let tools := lookup fields "tools"
    let tool_choice : Option String := if tools.isSome then some "auto" else none
    let temperature := lookup fields "temperature"
    let stream := (lookup fields "stream").getD (Json.bool false)
    match lookup fields "messages" with
    | none => .inl (.uncaught "KeyError: messages")
    | some (Json.arr msgs) =>
      .inr { fields := fields, tools := tools, tool_choice := tool_choice,
             temperature := temperature, stream := stream,
             messages := systemMessage :: msgs }
    | some _ => .inl (.uncaught "AttributeError: insert")
  | some _ => .inl (.uncaught "AttributeError: get")

/-- The keyword arguments built at lines 81–87 once `data["model"]`
succeeded. -/
def chatArgs (pre : ChatPre) (model : Json) : ChatArgs :=
  { model := model, messages := pre.messages, tools := pre.tools,
    tool_choice := pre.tool_choice, temperature := pre.temperature,
    stream := pre.stream }

/-- The body of the `try` block: `data["model"]` (a missing key raises a
`KeyError`, caught by the same `except`) followed by the upstream call. -/
def chatTry (upstream : ChatArgs → Except PyExc ChatResult)
    (pre : ChatPre) : Except PyExc ChatResult :=
  match lookup pre.fields "model" with
  | none => .error (pyKeyError "model")
  | some model => upstream (chatArgs pre model)

/-- Lines 125–128 (`convert_stream`): each upstream chunk is yielded as
one `data: <json>\n\n` frame, in upstream order. -/
def convert_stream (chunks : List String) : List String :=
  chunks.map (fun c => "data: " ++ c ++ "\n\n")

/-- Log lines produced while `convert_stream` iterates the upstream
stream: one `CHUNK:` line per chunk when debug is on. -/
def convertStreamLog (debug : Bool) (chunks : List String) : List String :=
  chunks.flatMap (fun c => logLines debug ("CHUNK: " ++ c))

/-- The `POST /v1/chat/completions` handler (lines 59–100), returning the
observable result together with the log lines it prints.  `upstream` is the
Azure SDK call; the SDK returns a `Stream` exactly when the `stream`
argument is truthy, so for a faithful oracle the `TypeError` branches are
unreachable. -/
def chat_completions (debug : Bool)
    (upstream : ChatArgs → Except PyExc ChatResult)
    (body : Option Json) : HandlerResult × List String :=
  match chatPrep body with
  | .inl r => (r, [])
  | .inr pre =>
    match chatTry upstream pre with
    | .error e =>
      let p := extractError e
      (.httpError p.1 ("Error occurred: " ++ p.2),
       logLines debug ("Error occurred: " ++ e.str))
    | .ok res =>
      if pre.stream.truthy then
        match res with
        | .stream cs =>
          (.streamResp (convert_stream cs), convertStreamLog debug cs)
        | .completion _ => (.uncaught "TypeError", [])
      else
        match res with
        | .completion j => (.ok j, [])
        | .stream _ => (.uncaught "TypeError", [])

/-- The keyword arguments passed to `azure_client.embeddings.create`. -/
structure EmbArgs where
  model : Json
  input : Json

/-- The body of the embeddings `try` block: `data["model"]` then
`data["input"]` (each a KeyError caught by the same `except` when
missing), then the upstream call. -/
def embTry (upstream : EmbArgs → Except PyExc Json)
    (fields : List (String × Json)) : Except PyExc Json :=
  match lookup fields "model" with
  | none => .error (pyKeyError "model")
  | some model =>
    match lookup fields "input" with
    | none => .error (pyKeyError "input")
    | some input => upstream { model := model, input := input }

/-- The `POST /v1/embeddings` handler (lines 103–123). -/
def embeddings (debug : Bool) (upstream : EmbArgs → Except PyExc Json)
    (body : Option Json) : HandlerResult × List String :=
  match body with
  | none => (.uncaught "json.decoder.JSONDecodeError", [])
  | some (Json.obj fields) =>
    match embTry upstream fields with
    | .error e =>
      let p := extractError e
      (.httpError p.1 ("Error occurred: " ++ p.2),
       logLines debug ("Error occurred: " ++ e.str))
    | .ok j => (.ok j, [])
  | some _ => (.uncaught "AttributeError: get", [])

/-- The fixed body of `GET /v1/models` (line 56). -/
def modelsJson : Json :=
  .obj [("data", .arr [.obj [("id", .str "gpt-4"), ("name", .str "Your model")]])]

/-- One routed request: the raw body bytes (logged by the middleware) plus
the route-specific parsed payload. -/
inductive Route where
  | root : Route
  | models : Route
  | chat (parsed : Option Json) : Route
  | embed (parsed : Option Json) : Route

/-- Endpoint dispatch after the middleware. -/
def dispatch (debug : Bool) (upstream : ChatArgs → Except PyExc ChatResult)
    (upstreamEmb : EmbArgs → Except PyExc Json) (uri : String)
    (r : Route) : HandlerResult × List String :=
  match r with
  | .root => (.ok (.str uri), [])
  | .models => (.ok modelsJson, [])
  | .chat b => chat_completions debug upstream b
  | .embed b => embeddings debug upstreamEmb b

/-- The application with its `log_body` middleware (lines 40–44): every
request's raw body is logged (when debug) before dispatch. -/
def app (debug : Bool) (upstream : ChatArgs → Except PyExc ChatResult)
    (upstreamEmb : EmbArgs → Except PyExc Json) (uri : String)
    (raw : String) (r : Route) : HandlerResult × List String :=
  let h := dispatch debug upstream upstreamEmb uri r
  (h.1, logLines debug ("REQUEST BODY: " ++ raw) ++ h.2)

/-!
Model of the YouTube URL resolver (`google/youtube/helpers.py`) together
with the pieces of CPython's `urllib.parse` it calls.  The stdlib model
follows CPython's `urlsplit` / `urlparse` / `parse_qsl` / `parse_qs` over
`List Char`, with two documented simplifications, neither exercised by any
claim: percent-decoding (`unquote`) in `parse_qsl` is omitted (the model is
the identity on query components without a percent sign), and the netloc
validity checks (`Invalid IPv6 URL` on unbalanced brackets, bracketed-host
and non-ASCII validation) are omitted — the model is faithful for URLs
whose netloc contains no brackets and no non-ASCII characters.
-/

/-- Splits a character list at the first occurrence of `sep`; `none` when
`sep` does not occur.  Models Python's `s.split(sep, 1)` / `s.find(sep)`. -/
def splitFirst : List Char → Char → Option (List Char × List Char)
  | [], _ => none
  | c :: rest, sep =>
    if c = sep then some ([], rest)
    else
      match splitFirst rest sep with
      | none => none
      | some p => some (c :: p.1, p.2)

/-- Splits at the last occurrence of `sep` (so the second component
contains no `sep`); models `s.rfind(sep)`. -/
def splitLast (cs : List Char) (sep : Char) : Option (List Char × List Char) :=
  match splitFirst cs.reverse sep with
  | none => none
  | some p => some (p.2.reverse, p.1.reverse)

/-- Python's `s.split(sep)` (no limit): never returns an empty list. -/
def pySplitAux (sep : Char) : List Char → List Char → List (List Char)
  | [], acc => [acc.reverse]
  | c :: rest, acc =>
    if c = sep then acc.reverse :: pySplitAux sep rest []
    else pySplitAux sep rest (c :: acc)

/-- Python's `s.split(sep)`. -/
def pySplit (cs : List Char) (sep : Char) : List (List Char) :=
  pySplitAux sep cs []

/-- Python's `s.strip(c)` for a single strip character. -/
def pyStrip (cs : List Char) (c : Char) : List Char :=
  ((cs.dropWhile (fun x => x = c)).reverse.dropWhile (fun x => x = c)).reverse

/-- The characters CPython's `urlsplit` accepts in a scheme after the
leading letter. -/
def isSchemeChar (c : Char) : Bool :=
  c.isAlphanum || c == '+' || c == '-' || c == '.'

/-- WHATWG C0-control-or-space predicate: `urlsplit` strips these from
both ends of its input. -/
def isC0OrSpace (c : Char) : Bool :=
  c.toNat ≤ 32

/-- Scheme extraction in `urlsplit`: the part before the first `:` is a
scheme when the colon is not first, the head is an ASCII letter and every
character is a scheme character; the scheme is lowercased. -/
def splitScheme (url : List Char) : List Char × List Char :=
  match splitFirst url ':' with
  | none => ([], url)
  | some (before, after) =>
    match before with
    | [] => ([], url)
    | c0 :: rest =>
      if c0.isAlpha && (c0 :: rest).all isSchemeChar then
        ((c0 :: rest).map Char.toLower, after)
      else
        ([], url)

/-- CPython `_splitnetloc` on the text after the leading `//`: the netloc
runs until the first of `/`, `?` or `#`. -/
def splitNetloc (url : List Char) : List Char × List Char :=
  (url.takeWhile (fun c => !(c == '/' || c == '?' || c == '#')),
   url.dropWhile (fun c => !(c == '/' || c == '?' || c == '#')))

/-- The result record of `urlsplit`. -/
structure SplitResult where
  scheme : List Char
  netloc : List Char
  path : List Char
  query : List Char
  fragment : List Char

/-- CPython `urlsplit` (with `allow_fragments` true): strip C0/space from
both ends, remove tab/CR/LF, split off scheme, netloc (when the remainder
starts with `//`), fragment at the first `#`, then query at the first `?`. -/
def urlsplit (url0 : List Char) : SplitResult :=
  let url1 := ((url0.dropWhile isC0OrSpace).reverse.dropWhile isC0OrSpace).reverse
  let url2 := url1.filter (fun c => !(c == '\t' || c == '\r' || c == '\n'))
  let sp := splitScheme url2
  let nl := if sp.2.take 2 = ['/', '/'] then splitNetloc (sp.2.drop 2)
            else ([], sp.2)
  let fr := match splitFirst nl.2 '#' with
    | none => (nl.2, ([] : List Char))
    | some p => p
  let qu := match splitFirst fr.1 '?' with
    | none => (fr.1, ([] : List Char))
    | some p => p
  { scheme := sp.1, netloc := nl.1, path := qu.1, query := qu.2,
    fragment := fr.2 }

/-- The schemes for which `urlparse` splits `;params` off the path. -/
def usesParams : List (List Char) :=
  [[], "ftp".data, "hdl".data, "prospero".data, "http".data, "imap".data,
   "https".data, "shttp".data, "rtsp".data, "rtspu".data, "sip".data,
   "sips".data, "mms".data, "sftp".data, "tel".data]

/-- CPython `_splitparams`: when the path contains a `/`, params start at
the first `;` at or after the last `/`; otherwise at the first `;`. -/
def splitParams (url : List Char) : List Char × List Char :=
  match splitLast url '/' with
  | some p =>
    match splitFirst p.2 ';' with
    | none => (url, [])
    | some q => (p.1 ++ '/' :: q.1, q.2)
  | none =>
    match splitFirst url ';' with
    | none => (url, [])
    | some q => q

/-- The result record of `urlparse`. -/
structure ParseResult where
  scheme : List Char
  netloc : List Char
  path : List Char
  params : List Char
  query : List Char
  fragment : List Char

/-- CPython `urlparse`: `urlsplit` followed by params splitting for
schemes that use params. -/
def urlparse (url : List Char) : ParseResult :=
  let s := urlsplit url
  let pp := if usesParams.contains s.scheme && s.path.contains ';' then
              splitParams s.path
            else (s.path, [])
  { scheme := s.scheme, netloc := s.netloc, path := pp.1, params := pp.2,
    query := s.query, fragment := s.fragment }

/-- The `+` to space replacement `parse_qsl` applies to names and values. -/
def plusToSpace (cs : List Char) : List Char :=
  cs.map (fun c => if c = '+' then ' ' else c)

/-- CPython `parse_qsl` with default arguments: split the query on `&`,
skip fragments without `=` and fragments whose value is empty
(`keep_blank_values` is false), replace `+` by space.  Percent-decoding is
omitted (identity on inputs without `%`). -/
def parse_qsl (qs : List Char) : List (List Char × List Char) :=
  (pySplit qs '&').filterMap (fun pair =>
    match splitFirst pair '=' with
    | none => none
    | some p => if p.2.isEmpty then none else some (plusToSpace p.1, plusToSpace p.2))

/-- Indexing the `parse_qs` dict at `key`: `some` of the list of values
for `key` in first-occurrence order when the key is present (the list is
then nonempty), `none` when indexing would raise `KeyError`. -/
def parse_qs_lookup (qs : List Char) (key : List Char) : Option (List (List Char)) :=
  let vals := (parse_qsl qs).filterMap (fun p => if p.1 = key then some p.2 else none)
  if vals.isEmpty then none else some vals

/-- The observable outcome of `get_video_url`: a returned identifier, a
`ValueError` with its message, or a `KeyError` (from `parse_qs(...)["v"]`)
with its key. -/
inductive VideoResult where
  | ok (id : String)
  | valueError (msg : String)
  | keyError (key : String)

/-- Function `get_video_url` from `google/youtube/helpers.py`.  The
argument models `os.getenv("VIDEO_URL")` (`none` when the variable is
unset). -/
def get_video_url (video_url : Option String) : VideoResult :=
  match video_url with
  | none => .valueError "Error: video_url must be set"
  | some u =>
    let parsed := urlparse u.data
    if parsed.netloc = "www.youtube.com".data then
      match parse_qs_lookup parsed.query "v".data with
      | none => .keyError "v"
      | some vals => .ok (String.mk (vals.headD []))
    else if parsed.netloc = "youtu.be".data then
      .ok (String.mk ((pySplit (pyStrip parsed.path '/') '/').headD []))
    else
      .valueError ("Invalid YouTube URL: " ++ u)

/-!
Concrete inputs used by the witness theorems below: a plain chat body, a
streaming chat body, an embeddings body, and oracles standing for the
Azure SDK returning a completion, a stream, or an upstream error.
-/

/-- Fields of a plain (non-streaming) concrete chat request body. -/
def fieldsW : List (String × Json) :=
  [("model", Json.str "m"), ("messages", Json.arr [Json.str "hi"])]

/-- The plain concrete chat request body, as decoded JSON. -/
def bodyW : Option Json := some (Json.obj fieldsW)

/-- The pre-try state `chatPrep` produces on `bodyW`. -/
def preW : ChatPre :=
  { fields := fieldsW, tools := none, tool_choice := none, temperature := none,
    stream := Json.bool false, messages := [systemMessage, Json.str "hi"] }

/-- Fields of a concrete streaming chat request body. -/
def fieldsWS : List (String × Json) :=
  [("model", Json.str "m"), ("messages", Json.arr []), ("stream", Json.bool true)]

/-- The streaming concrete chat request body, as decoded JSON. -/
def bodyWS : Option Json := some (Json.obj fieldsWS)

/-- The pre-try state `chatPrep` produces on `bodyWS`. -/
def preWS : ChatPre :=
  { fields := fieldsWS, tools := none, tool_choice := none, temperature := none,
    stream := Json.bool true, messages := [systemMessage] }

/-- A concrete upstream exception carrying a 429 status and a message. -/
def excW : PyExc := { status_code := some 429, message := some "rate limited", str := "boom" }

/-- A chat oracle that always fails with `excW`. -/
def upErrW : ChatArgs → Except PyExc ChatResult := fun _ => .error excW

/-- A chat oracle that always returns one completion object. -/
def upOkW : ChatArgs → Except PyExc ChatResult := fun _ => .ok (.completion (Json.str "done"))

/-- A chat oracle that always returns a two-chunk stream. -/
def upStreamW : ChatArgs → Except PyExc ChatResult := fun _ => .ok (.stream ["c1", "c2"])

/-- An embeddings oracle that always fails with `excW`. -/
def eupErrW : EmbArgs → Except PyExc Json := fun _ => .error excW

/-- Fields of a concrete embeddings request body. -/
def fieldsEW : List (String × Json) := [("model", Json.str "m"), ("input", Json.str "x")]

/-!
Helper lemmas shared by the claim theorems below.
-/

/-- When the pre-try phase succeeds and the try block raises, the chat
handler answers with the HTTP error built by `extractError`. -/
theorem chat_error_result (debug : Bool) (up : ChatArgs → Except PyExc ChatResult)
    (bodyC : Option Json) (pre : ChatPre) (e : PyExc)
    (hprep : chatPrep bodyC = Sum.inr pre)
    (htry : chatTry up pre = .error e) :
    (chat_completions debug up bodyC).1 =
      .httpError (extractError e).1 ("Error occurred: " ++ (extractError e).2) := by
  simp [chat_completions, hprep, htry]

/-- When the embeddings try block raises, the handler answers with the
HTTP error built by `extractError`. -/
theorem emb_error_result (debug : Bool) (eup : EmbArgs → Except PyExc Json)
    (fields : List (String × Json)) (f : PyExc)
    (htry : embTry eup fields = .error f) :
    (embeddings debug eup (some (.obj fields))).1 =
      .httpError (extractError f).1 ("Error occurred: " ++ (extractError f).2) := by
  simp [embeddings, htry]

/-- The chat handler's result component does not depend on the debug
flag. -/
theorem chat_result_debug_free (d e : Bool) (up : ChatArgs → Except PyExc ChatResult)
    (b : Option Json) :
    (chat_completions d up b).1 = (chat_completions e up b).1 := by
  rcases hp : chatPrep b with r | pre
  · simp [chat_completions, hp]
  · rcases ht : chatTry up pre with x | res
    · simp [chat_completions, hp, ht]
    · rcases res with j | cs <;> by_cases h : pre.stream.truthy <;>
        simp [chat_completions, hp, ht, h]

/-- The embeddings handler's result component does not depend on the
debug flag. -/
theorem emb_result_debug_free (d e : Bool) (eup : EmbArgs → Except PyExc Json)
    (b : Option Json) :
    (embeddings d eup b).1 = (embeddings e eup b).1 := by
  rcases b with _ | j
  · rfl
  · cases j <;> try rfl
    case obj fields =>
      rcases ht : embTry eup fields with x | res <;> simp [embeddings, ht]

/-- C1.  Every upstream-call failure in the chat completions and the
embeddings endpoints is caught at the endpoint boundary and re-raised as
an HTTP error whose status and message are the exception's `status_code`
and `message` attributes when both exist, and otherwise status 500 with
the exception's string representation; an upstream error with status 429
and message "rate limited" surfaces as HTTP 429 with a detail containing
"rate limited". -/
theorem C1_upstream_error_to_http (debug : Bool)
    (up : ChatArgs → Except PyExc ChatResult) (eup : EmbArgs → Except PyExc Json)
    (bodyC : Option Json) (pre : ChatPre) (model : Json) (e : PyExc)
    (fieldsE : List (String × Json)) (modelE inputE : Json) (f : PyExc)
    (hprep : chatPrep bodyC = Sum.inr pre)
    (hmodel : lookup pre.fields "model" = some model)
    (hup : up (chatArgs pre model) = .error e)
    (hmE : lookup fieldsE "model" = some modelE)
    (hiE : lookup fieldsE "input" = some inputE)
    (hupE : eup { model := modelE, input := inputE } = .error f) :
    ((∀ c m, e.status_code = some c → e.message = some m →
        (chat_completions debug up bodyC).1 = .httpError c ("Error occurred: " ++ m)) ∧
     ((e.status_code = none ∨ e.message = none) →
        (chat_completions debug up bodyC).1 = .httpError 500 ("Error occurred: " ++ e.str)) ∧
     (e.status_code = some 429 → e.message = some "rate limited" →
        ∃ a b : String, (chat_completions debug up bodyC).1 =
          .httpError 429 (a ++ "rate limited" ++ b))) ∧
    ((∀ c m, f.status_code = some c → f.message = some m →
        (embeddings debug eup (some (.obj fieldsE))).1 = .httpError c ("Error occurred: " ++ m)) ∧
     ((f.status_code = none ∨ f.message = none) →
        (embeddings debug eup (some (.obj fieldsE))).1 = .httpError 500 ("Error occurred: " ++ f.str)) ∧
     (f.status_code = some 429 → f.message = some "rate limited" →
        ∃ a b : String, (embeddings debug eup (some (.obj fieldsE))).1 =
          .httpError 429 (a ++ "rate limited" ++ b))) := by
  have htry : chatTry up pre = .error e := by simp [chatTry, hmodel, hup]
  have htryE : embTry eup fieldsE = .error f := by simp [embTry, hmE, hiE, hupE]
  have base := chat_error_result debug up bodyC pre e hprep htry
  have baseE := emb_error_result debug eup fieldsE f htryE
  refine ⟨⟨?_, ?_, ?_⟩, ?_, ?_, ?_⟩
  · intro c m hc hm
    rw [base]; simp [extractError, hc, hm]
  · intro h
    rw [base]
    rcases h with h | h
    · simp [extractError, h]
    · rcases hc : e.status_code with _ | c <;> simp [extractError, h, hc]
  · intro hc hm
    refine ⟨"Error occurred: ", "", ?_⟩
    rw [base]; simp [extractError, hc, hm]
  · intro c m hc hm
    rw [baseE]; simp [extractError, hc, hm]
  · intro h
    rw [baseE]
    rcases h with h | h
    · simp [extractError, h]
    · rcases hc : f.status_code with _ | c <;> simp [extractError, h, hc]
  · intro hc hm
    refine ⟨"Error occurred: ", "", ?_⟩
    rw [baseE]; simp [extractError, hc, hm]

/-- Witness for C1 at a concrete 429 upstream failure on both
endpoints. -/
theorem C1_upstream_error_to_http_witness :
    (chat_completions false upErrW bodyW).1 = .httpError 429 ("Error occurred: " ++ "rate limited") ∧
    (∃ a b : String, (chat_completions false upErrW bodyW).1 =
       .httpError 429 (a ++ "rate limited" ++ b)) ∧
    (embeddings false eupErrW (some (Json.obj fieldsEW))).1 =
      .httpError 429 ("Error occurred: " ++ "rate limited") := by
  have h := C1_upstream_error_to_http false upErrW eupErrW bodyW preW (Json.str "m") excW
    fieldsEW (Json.str "m") (Json.str "x") excW rfl rfl rfl rfl rfl rfl
  exact ⟨h.1.1 429 "rate limited" rfl rfl, h.1.2.2 rfl rfl, h.2.1 429 "rate limited" rfl rfl⟩

/-- C2.  For every chat completions request, the message sequence
forwarded upstream is the fixed system message followed by the request's
original messages in order, unmodified. -/
theorem C2_system_message_prepended (body : Option Json)
    (fields : List (String × Json)) (msgs : List Json) (pre : ChatPre)
    (hbody : body = some (Json.obj fields))
    (hm : lookup fields "messages" = some (Json.arr msgs))
    (hprep : chatPrep body = Sum.inr pre) :
    pre.messages = systemMessage :: msgs ∧
    ∀ model : Json, (chatArgs pre model).messages = systemMessage :: msgs := by
  subst hbody
  simp [chatPrep, hm] at hprep
  subst hprep
  simp [chatArgs]

/-- Witness for C2 on a concrete one-message request. -/
theorem C2_system_message_prepended_witness :
    preW.messages = systemMessage :: [Json.str "hi"] :=
  (C2_system_message_prepended bodyW fieldsW [Json.str "hi"] preW rfl rfl rfl).1

/-- C3.  For every streaming chat completions request, the response is
one frame per upstream chunk, each equal to `data: ` ++ chunk ++ two
newlines, in upstream emission order. -/
theorem C3_stream_framing (debug : Bool) (up : ChatArgs → Except PyExc ChatResult)
    (bodyC : Option Json) (pre : ChatPre) (model : Json) (cs : List String)
    (hprep : chatPrep bodyC = Sum.inr pre)
    (hstream : pre.stream.truthy = true)
    (hmodel : lookup pre.fields "model" = some model)
    (hup : up (chatArgs pre model) = .ok (.stream cs)) :
    (chat_completions debug up bodyC).1 = .streamResp (convert_stream cs) ∧
    (convert_stream cs).length = cs.length ∧
    ∀ i : Fin cs.length,
      (convert_stream cs).get (Fin.cast (by simp [convert_stream]) i) =
        "data: " ++ cs.get i ++ "\n\n" := by
  refine ⟨?_, by simp [convert_stream], ?_⟩
  · simp [chat_completions, hprep, chatTry, hmodel, hup, hstream]
  · intro i
    simp [convert_stream, List.get_eq_getElem]

/-- Witness for C3 at a concrete two-chunk stream. -/
theorem C3_stream_framing_witness :
    (chat_completions false upStreamW bodyWS).1 = .streamResp (convert_stream ["c1", "c2"]) ∧
    (convert_stream ["c1", "c2"]).length = (["c1", "c2"] : List String).length := by
  have h := C3_stream_framing false upStreamW bodyWS preWS (Json.str "m") ["c1", "c2"]
    rfl rfl rfl rfl
  exact ⟨h.1, h.2.1⟩

/-- C4.  For every chat completions request whose stream flag is false or
absent (so the local `stream` is the default `False`), a successful
upstream call yields exactly the upstream completion object as the
response body. -/
theorem C4_nonstream_passthrough (debug : Bool)
    (up : ChatArgs → Except PyExc ChatResult)
    (bodyC : Option Json) (pre : ChatPre) (model j : Json)
    (hprep : chatPrep bodyC = Sum.inr pre)
    (hstream : pre.stream = Json.bool false)
    (hmodel : lookup pre.fields "model" = some model)
    (hup : up (chatArgs pre model) = .ok (.completion j)) :
    (chat_completions debug up bodyC).1 = .ok j := by
  simp [chat_completions, hprep, chatTry, hmodel, hup, hstream, Json.truthy]

/-- Witness for C4 at a concrete completion. -/
theorem C4_nonstream_passthrough_witness :
    (chat_completions false upOkW bodyW).1 = .ok (Json.str "done") :=
  C4_nonstream_passthrough false upOkW bodyW preW (Json.str "m") (Json.str "done")
    rfl rfl rfl rfl

/-- C5.  The tool-choice argument forwarded upstream is `auto` exactly
when the request body has a `tools` key, and omitted otherwise; the tools
value itself is forwarded unchanged. -/
theorem C5_tool_choice_auto (body : Option Json)
    (fields : List (String × Json)) (pre : ChatPre)
    (hbody : body = some (Json.obj fields))
    (hprep : chatPrep body = Sum.inr pre) :
    pre.tools = lookup fields "tools" ∧
    pre.tool_choice = (if (lookup fields "tools").isSome then some "auto" else none) ∧
    ((lookup fields "tools").isSome → pre.tool_choice = some "auto") ∧
    (lookup fields "tools" = none → pre.tool_choice = none) ∧
    ∀ model : Json, (chatArgs pre model).tools = pre.tools ∧
      (chatArgs pre model).tool_choice = pre.tool_choice := by
  subst hbody
  rcases hm : lookup fields "messages" with _ | j
  · simp [chatPrep, hm] at hprep
  · cases j <;> simp [chatPrep, hm] at hprep
    subst hprep
    refine ⟨rfl, rfl, ?_, ?_, fun model => ⟨rfl, rfl⟩⟩
    · intro h; simp [h]
    · intro h; simp [h]

/-- Witness for C5 on a concrete request without tools. -/
theorem C5_tool_choice_auto_witness :
    preW.tools = lookup fieldsW "tools" ∧
    preW.tool_choice = (if (lookup fieldsW "tools").isSome then some "auto" else none) := by
  have h := C5_tool_choice_auto bodyW fieldsW preW rfl rfl
  exact ⟨h.1, h.2.1⟩

/-- C6.  `get_video_url` dispatches on the parsed host: on
www.youtube.com it returns the first value of the `v` query parameter
(raising `KeyError` when absent), on youtu.be the first path segment
after stripping slashes; both example URLs yield abc123. -/
theorem C6_video_url_dispatch (u : String) :
    ((urlparse u.data).netloc = "www.youtube.com".data →
      (∀ v vs, parse_qs_lookup (urlparse u.data).query "v".data = some (v :: vs) →
         get_video_url (some u) = .ok (String.mk v)) ∧
      (parse_qs_lookup (urlparse u.data).query "v".data = none →
         get_video_url (some u) = .keyError "v")) ∧
    ((urlparse u.data).netloc = "youtu.be".data →
      get_video_url (some u) =
        .ok (String.mk ((pySplit (pyStrip (urlparse u.data).path '/') '/').headD []))) ∧
    get_video_url (some "https://www.youtube.com/watch?v=abc123") = .ok "abc123" ∧
    get_video_url (some "https://youtu.be/abc123") = .ok "abc123" := by
  refine ⟨?_, ?_, by rfl, by rfl⟩
  · intro hn
    constructor
    · intro v vs hq
      simp [get_video_url, hn, hq]
    · intro hq
      simp [get_video_url, hn, hq]
  · intro hn
    have hne : (urlparse u.data).netloc ≠ "www.youtube.com".data := by
      rw [hn]; decide
    simp [get_video_url, hne, hn]

/-- Witness for C6 at the two example URLs, applying the dispatch parts
at concrete parses. -/
theorem C6_video_url_dispatch_witness :
    (urlparse "https://www.youtube.com/watch?v=abc123".data).netloc = "www.youtube.com".data ∧
    parse_qs_lookup (urlparse "https://www.youtube.com/watch?v=abc123".data).query "v".data =
      some ["abc123".data] ∧
    get_video_url (some "https://www.youtube.com/watch?v=abc123") = .ok (String.mk "abc123".data) ∧
    get_video_url (some "https://youtu.be/abc123") = .ok "abc123" := by
  refine ⟨by rfl, by rfl, ?_, (C6_video_url_dispatch "x").2.2.2⟩
  exact ((C6_video_url_dispatch "https://www.youtube.com/watch?v=abc123").1 (by rfl)).1
    "abc123".data [] (by rfl)

/-- C7.  `get_video_url` raises a value error saying the URL must be set
when the input is absent, and a distinct value error naming the offending
input when the host is neither www.youtube.com nor youtu.be; in both
cases no identifier is returned. -/
theorem C7_video_url_errors (u : String) :
    get_video_url none = .valueError "Error: video_url must be set" ∧
    ((urlparse u.data).netloc ≠ "www.youtube.com".data →
     (urlparse u.data).netloc ≠ "youtu.be".data →
     get_video_url (some u) = .valueError ("Invalid YouTube URL: " ++ u)) ∧
    (∀ w : String, "Invalid YouTube URL: " ++ w ≠ "Error: video_url must be set") ∧
    (∀ s, get_video_url none ≠ VideoResult.ok s) ∧
    ((urlparse u.data).netloc ≠ "www.youtube.com".data →
     (urlparse u.data).netloc ≠ "youtu.be".data →
     ∀ s, get_video_url (some u) ≠ VideoResult.ok s) := by
  have hdistinct : ∀ w : String, "Invalid YouTube URL: " ++ w ≠ "Error: video_url must be set" := by
    intro w h
    have h2 : ('I' :: ("nvalid YouTube URL: ".data ++ w.data)) = "Error: video_url must be set".data :=
      congrArg String.data h
    have h3 := congrArg List.head? h2
    simp at h3
  have hinv : (urlparse u.data).netloc ≠ "www.youtube.com".data →
      (urlparse u.data).netloc ≠ "youtu.be".data →
      get_video_url (some u) = .valueError ("Invalid YouTube URL: " ++ u) := by
    intro h1 h2
    simp [get_video_url, h1, h2]
  refine ⟨rfl, hinv, hdistinct, ?_, ?_⟩
  · intro s h; cases h
  · intro h1 h2 s h
    rw [hinv h1 h2] at h
    cases h

/-- Witness for C7 at a missing input and at an unrecognized host. -/
theorem C7_video_url_errors_witness :
    get_video_url none = .valueError "Error: video_url must be set" ∧
    get_video_url (some "https://example.com/x") =
      .valueError ("Invalid YouTube URL: " ++ "https://example.com/x") := by
  have h := C7_video_url_errors "https://example.com/x"
  exact ⟨h.1, h.2.1 (by decide) (by decide)⟩

/-- C8.  For every request to any endpoint, the response is identical
whether the debug flag is enabled or disabled; the flag only controls the
log output. -/
theorem C8_debug_flag_noninterference (up : ChatArgs → Except PyExc ChatResult)
    (eup : EmbArgs → Except PyExc Json) (uri raw : String) (r : Route) :
    (app true up eup uri raw r).1 = (app false up eup uri raw r).1 := by
  rcases r with _ | _ | b | b
  · rfl
  · rfl
  · exact chat_result_debug_free true false up b
  · exact emb_result_debug_free true false eup b

/-- C9.  The status-extraction error policy applies only to failures
raised inside the try block: a body that is not valid JSON or lacks the
`messages` key makes the handler raise an untranslated exception, never an
HTTP error built by the best-effort extraction. -/
theorem C9_pre_try_errors_untranslated (debug : Bool)
    (up : ChatArgs → Except PyExc ChatResult) :
    ((chat_completions debug up none).1 = .uncaught "json.decoder.JSONDecodeError" ∧
     ∀ c d, (chat_completions debug up none).1 ≠ .httpError c d) ∧
    ∀ fields : List (String × Json), lookup fields "messages" = none →
      ((chat_completions debug up (some (.obj fields))).1 = .uncaught "KeyError: messages" ∧
       ∀ c d, (chat_completions debug up (some (.obj fields))).1 ≠ .httpError c d) := by
  constructor
  · constructor
    · rfl
    · intro c d; simp [chat_completions, chatPrep]
  · intro fields hm
    constructor
    · simp [chat_completions, chatPrep, hm]
    · intro c d; simp [chat_completions, chatPrep, hm]

/-- Witness for C9 at an invalid-JSON body and a body lacking
`messages`. -/
theorem C9_pre_try_errors_untranslated_witness :
    (chat_completions false upOkW none).1 = .uncaught "json.decoder.JSONDecodeError" ∧
    (chat_completions false upOkW (some (Json.obj [("model", Json.str "m")]))).1 =
      .uncaught "KeyError: messages" := by
  have h := C9_pre_try_errors_untranslated false upOkW
  exact ⟨h.1.1, (h.2 [("model", Json.str "m")] rfl).1⟩

/-- C10.  For a set URL whose host is youtu.be and whose path strips to
nothing (for example https://youtu.be/), `get_video_url` returns the empty
string rather than raising. -/
theorem C10_short_host_empty_path (u : String)
    (hn : (urlparse u.data).netloc = "youtu.be".data)
    (hp : pyStrip (urlparse u.data).path '/' = []) :
    get_video_url (some u) = .ok "" := by
  have hne : (urlparse u.data).netloc ≠ "www.youtube.com".data := by
    rw [hn]; decide
  simp [get_video_url, hne, hn, hp, pySplit, pySplitAux]

/-- Witness for C10 at the URL https://youtu.be/ itself. -/
theorem C10_short_host_empty_path_witness :
    get_video_url (some "https://youtu.be/") = .ok "" :=
  C10_short_host_empty_path "https://youtu.be/" (by rfl) (by rfl)
